import Mathlib

/-!
Verification development for the MediGuard repository.

This file gives a shallow embedding, in Lean 4, of the decision logic of
the MediGuard application and proves properties of it:

* `verify_medicine_authenticity` (src/app.py, lines 207-288): the
  authenticity rule engine mapping scanned barcode data to a
  (status, details, confidence) triple;
* `generate_medicine_reminders` (src/app.py, lines 291-344): the reminder
  slot generator mapping a timing string and a duration to a list of
  future reminder records;
* `schedule_reminder` (src/scheduler.py, lines 36-58): the scheduler
  wrapper registering jobs keyed by reminder id.

Python strings are modelled as Lean `String`s, with all operations the
source uses (`.upper()`, `.lower()`, `.split(sep)`, `.startswith`,
substring `in`, `int(...)`, `str.isalpha` / `str.isdigit`) re-implemented
over `List Char` for the ASCII range, so that every definition reduces in
the kernel.  Python `datetime` values are modelled as records compared
lexicographically (exactly the comparison semantics of naive `datetime`
objects); the reminder generator, which only adds `timedelta`s and
compares, works over an abstract integer timeline in seconds.
-/

set_option maxRecDepth 8000

namespace Mediguard

/-! ## String primitives (ASCII model of the Python operations used) -/

/-- ASCII model of Python `str.upper` applied to one character. -/
def pyCharUpper (c : Char) : Char :=
  if 'a' ≤ c ∧ c ≤ 'z' then Char.ofNat (c.toNat - 32) else c

/-- ASCII model of Python `str.lower` applied to one character. -/
def pyCharLower (c : Char) : Char :=
  if 'A' ≤ c ∧ c ≤ 'Z' then Char.ofNat (c.toNat + 32) else c

/-- Python `s.upper()` (ASCII). -/
def pyUpper (s : String) : String := String.mk (s.data.map pyCharUpper)

/-- Python `s.lower()` (ASCII). -/
def pyLower (s : String) : String := String.mk (s.data.map pyCharLower)

/-- Split a character list at every occurrence of `sep`, keeping empty
pieces, exactly like Python `str.split(sep)` with a one-character
separator. -/
def splitOnCharAux (sep : Char) : List Char → List Char → List (List Char)
  | [], acc => [acc.reverse]
  | c :: rest, acc =>
    if c = sep then acc.reverse :: splitOnCharAux sep rest []
    else splitOnCharAux sep rest (c :: acc)

/-- Python `s.split(sep)` for a one-character separator. -/
def pySplit (s : String) (sep : Char) : List String :=
  (splitOnCharAux sep s.data []).map String.mk

/-- `listStartsWith l pat` holds when `pat` is a prefix of `l`. -/
def listStartsWith : List Char → List Char → Bool
  | _, [] => true
  | [], _ :: _ => false
  | a :: as, b :: bs => a = b && listStartsWith as bs

/-- Does `pat` occur as a contiguous sublist? Model of Python `pat in s`. -/
def containsSubAux (pat : List Char) : List Char → Bool
  | [] => listStartsWith [] pat
  | a :: rest => listStartsWith (a :: rest) pat || containsSubAux pat rest

/-- Python substring test `pat in s`. -/
def containsTok (s pat : String) : Bool := containsSubAux pat.data s.data

/-- Python `s.startswith(pre)`. -/
def pyStartsWith (s pre : String) : Bool := listStartsWith s.data pre.data

/-- Python `s[:n]`. -/
def pyTake (s : String) (n : Nat) : String := String.mk (s.data.take n)

/-! ## Python `int(...)` (ASCII model)

Python `int` on a string strips surrounding whitespace, accepts an
optional sign, and then requires a nonempty digit run in which single
underscores may separate digits. -/

/-- Characters stripped by Python `int` (ASCII whitespace). -/
def isPyWs (c : Char) : Bool :=
  c = ' ' || c = '\t' || c = '\n' || c = '\r' || c = '\x0b' || c = '\x0c'

/-- Strip ASCII whitespace from both ends. -/
def stripWs (l : List Char) : List Char :=
  ((l.dropWhile isPyWs).reverse.dropWhile isPyWs).reverse

/-- Digit run with optional single underscores between digits, after the
first digit has been consumed into `acc`. -/
def pyIntLoop : List Char → Nat → Option Nat
  | [], acc => some acc
  | '_' :: c :: rest, acc =>
    if c.isDigit then pyIntLoop rest (acc * 10 + (c.toNat - 48)) else none
  | ['_'], _ => none
  | c :: rest, acc =>
    if c.isDigit then pyIntLoop rest (acc * 10 + (c.toNat - 48)) else none

/-- Nonempty digit run (underscore-separated) to a natural number. -/
def pyIntDigits : List Char → Option Nat
  | [] => none
  | c :: rest => if c.isDigit then pyIntLoop rest (c.toNat - 48) else none

/-- Python `int(s)` for decimal string input: `none` models `ValueError`. -/
def pythonInt (s : String) : Option Int :=
  match stripWs s.data with
  | '+' :: rest => (pyIntDigits rest).map Int.ofNat
  | '-' :: rest => (pyIntDigits rest).map (fun n => -(n : Int))
  | rest => (pyIntDigits rest).map Int.ofNat

/-! ## Dates and naive datetimes -/

/-- A calendar date as produced by `datetime.strptime(s, "%Y-%m-%d")`. -/
structure Date where
  year : Nat
  month : Nat
  day : Nat
deriving DecidableEq, Repr

/-- A naive Python `datetime` (what `datetime.now()` returns).  Python
compares naive datetimes lexicographically on
(year, month, day, hour, minute, second, microsecond). -/
structure PyDateTime where
  year : Nat
  month : Nat
  day : Nat
  hour : Nat
  minute : Nat
  second : Nat
  micro : Nat
deriving DecidableEq, Repr

/-- Lexicographic `<` on naive datetimes, as Python compares them. -/
def dtLt (a b : PyDateTime) : Bool :=
  a.year < b.year || (a.year = b.year &&
    (a.month < b.month || (a.month = b.month &&
      (a.day < b.day || (a.day = b.day &&
        (a.hour < b.hour || (a.hour = b.hour &&
          (a.minute < b.minute || (a.minute = b.minute &&
            (a.second < b.second || (a.second = b.second &&
              decide (a.micro < b.micro))))))))))))

/-- `datetime.strptime(s, "%Y-%m-%d")` yields midnight of the parsed date. -/
def Date.toDateTime (d : Date) : PyDateTime :=
  ⟨d.year, d.month, d.day, 0, 0, 0, 0⟩

/-- Gregorian leap-year rule used by Python `datetime`. -/
def isLeapYear (y : Nat) : Bool :=
  y % 4 = 0 && (y % 100 ≠ 0 || y % 400 = 0)

/-- Number of days in a month, as validated by the `datetime` constructor. -/
def daysInMonth (y m : Nat) : Nat :=
  if m = 2 then (if isLeapYear y then 29 else 28)
  else if m = 4 ∨ m = 6 ∨ m = 9 ∨ m = 11 then 30
  else 31

/-- Decimal digits to a natural number. -/
def digitsToNat (l : List Char) : Nat :=
  l.foldl (fun a c => a * 10 + (c.toNat - 48)) 0

/-- Model of `datetime.strptime(s, "%Y-%m-%d")` (`none` = `ValueError`).
The `%Y` directive matches exactly four digits, `%m` one or two digits
with value 1-12, `%d` one or two digits with value 1-31, the dashes are
literal, the whole string must be consumed, and the `datetime`
constructor then rejects year 0 and a day beyond the month's length. -/
def strptimeYMD (s : String) : Option Date :=
  match pySplit s '-' with
  | [ys, ms, ds] =>
    let yl := ys.data
    let ml := ms.data
    let dl := ds.data
    if yl.length = 4 ∧ yl.all Char.isDigit ∧
       (ml.length = 1 ∨ ml.length = 2) ∧ ml.all Char.isDigit ∧
       (dl.length = 1 ∨ dl.length = 2) ∧ dl.all Char.isDigit then
      let y := digitsToNat yl
      let m := digitsToNat ml
      let d := digitsToNat dl
      if 1 ≤ y ∧ 1 ≤ m ∧ m ≤ 12 ∧ 1 ≤ d ∧ d ≤ daysInMonth y m then
        some ⟨y, m, d⟩
      else none
    else none
  | _ => none

/-! ## Authenticity rule engine (src/app.py, `verify_medicine_authenticity`) -/

/-- The three verification statuses the engine can produce. -/
inductive Status where
  | valid
  | fake
  | suspicious
deriving DecidableEq, Repr

/-- The mutable triple `(status, confidence, details)` threaded through
the body of `verify_medicine_authenticity`. -/
structure VState where
  status : Status
  confidence : Int
  details : List String
deriving DecidableEq, Repr

/-- Input of the rule engine: the dict produced by `scan_qr_barcode`,
with the fields `verify_medicine_authenticity` reads
(`codes`, `batch`, `expiry`, `manufacturer`). -/
structure BarcodeData where
  codes : List String
  batch : String
  expiry : String
  manufacturer : String
deriving DecidableEq, Repr

/-- Rule 1 (src/app.py lines 227-250): classify the first code. -/
def rule1 (codes : List String) (s : VState) : VState :=
  match codes with
  | [] =>
    { status := Status.suspicious, confidence := 30,
      details := s.details ++ ["⚠ No barcode detected in image"] }
  | c :: _ =>
    let code := pyUpper c
    if containsTok code "MG-VALID" || pyStartsWith code "VALID" then
      { status := Status.valid, confidence := 95,
        details := s.details ++ ["✓ Valid MediGuard barcode format detected"] }
    else if containsTok code "FAKE" || containsTok code "FRAUD" ||
        containsTok code "TEST-FAKE" then
      { status := Status.fake, confidence := 99,
        details := s.details ++ ["✗ Counterfeited medicine pattern detected"] }
    else if containsTok code "ERROR" then
      { status := Status.suspicious, confidence := 20,
        details := s.details ++ ["⚠ Error scanning barcode - unable to verify"] }
    else
      { status := Status.valid, confidence := 80,
        details := s.details ++ ["✓ Barcode recognized: " ++ pyTake code 20] }

/-- Rule 2 (src/app.py lines 252-260): batch number format check. -/
def rule2 (batch : String) (s : VState) : VState :=
  if batch ≠ "" ∧ batch ≠ "UNKNOWN" then
    if 8 ≤ batch.length ∧ (batch.front.isAlpha = true ∨ batch.front.isDigit = true) then
      { s with confidence := min 95 (s.confidence + 10),
               details := s.details ++ ["✓ Batch format valid: " ++ batch] }
    else
      let s' := { s with details := s.details ++ ["⚠ Batch format unusual: " ++ batch] }
      if 40 < s'.confidence then
        { s' with confidence := max (s'.confidence - 10) 40 }
      else s'
  else s

/-- Rule 3 (src/app.py lines 262-274): expiry date check. -/
def rule3 (now : PyDateTime) (expiry : String) (s : VState) : VState :=
  if expiry ≠ "" ∧ expiry ≠ "Not detected" then
    match strptimeYMD expiry with
    | some d =>
      if dtLt now d.toDateTime then
        { s with confidence := min 95 (s.confidence + 5),
                 details := s.details ++ ["✓ Expiry valid until " ++ expiry] }
      else
        { status := Status.fake, confidence := 95,
          details := s.details ++ ["✗ Medicine already expired on " ++ expiry] }
    | none =>
      { s with details := s.details ++ ["⚠ Could not parse expiry date: " ++ expiry] }
  else s

/-- Rule 4 (src/app.py lines 276-279): manufacturer check. -/
def rule4 (manufacturer : String) (s : VState) : VState :=
  if manufacturer ≠ "" ∧ 3 < manufacturer.length ∧ manufacturer ≠ "Unknown" then
    { s with confidence := min 95 (s.confidence + 5),
             details := s.details ++ ["✓ Manufacturer: " ++ manufacturer] }
  else s

/-- Final determination (src/app.py lines 281-286). -/
def finalizeStep (s : VState) : VState :=
  if s.status = Status.suspicious then
    if s.confidence < 40 then
      { s with details := s.details ++
          ["Unable to verify. Recommend checking with pharmacist."] }
    else
      { s with details := s.details ++
          ["Verification inconclusive. Check with pharmacist if unsure."] }
  else s

/-- The state after rules 1-4, before the final determination. -/
def verifySteps14 (now : PyDateTime) (b : BarcodeData) : VState :=
  rule4 b.manufacturer (rule3 now b.expiry (rule2 b.batch
    (rule1 b.codes ⟨Status.suspicious, 50, []⟩)))

/-- `verify_medicine_authenticity` (src/app.py lines 207-288): starts
from `status = "suspicious"`, `confidence = 50`, empty details, and runs
the four rules followed by the final determination. -/
def verify_medicine_authenticity (now : PyDateTime) (b : BarcodeData) : VState :=
  finalizeStep (verifySteps14 now b)

/-! Per-step detail contributions, used to state the ordering contract on
the `details` sequence. -/

/-- The detail strings appended by rule 1. -/
def rule1Details (codes : List String) : List String :=
  match codes with
  | [] => ["⚠ No barcode detected in image"]
  | c :: _ =>
    let code := pyUpper c
    if containsTok code "MG-VALID" || pyStartsWith code "VALID" then
      ["✓ Valid MediGuard barcode format detected"]
    else if containsTok code "FAKE" || containsTok code "FRAUD" ||
        containsTok code "TEST-FAKE" then
      ["✗ Counterfeited medicine pattern detected"]
    else if containsTok code "ERROR" then
      ["⚠ Error scanning barcode - unable to verify"]
    else
      ["✓ Barcode recognized: " ++ pyTake code 20]

/-- The detail strings appended by rule 2. -/
def rule2Details (batch : String) : List String :=
  if batch ≠ "" ∧ batch ≠ "UNKNOWN" then
    if 8 ≤ batch.length ∧ (batch.front.isAlpha = true ∨ batch.front.isDigit = true) then
      ["✓ Batch format valid: " ++ batch]
    else
      ["⚠ Batch format unusual: " ++ batch]
  else []

/-- The detail strings appended by rule 3. -/
def rule3Details (now : PyDateTime) (expiry : String) : List String :=
  if expiry ≠ "" ∧ expiry ≠ "Not detected" then
    match strptimeYMD expiry with
    | some d =>
      if dtLt now d.toDateTime then ["✓ Expiry valid until " ++ expiry]
      else ["✗ Medicine already expired on " ++ expiry]
    | none => ["⚠ Could not parse expiry date: " ++ expiry]
  else []

/-- The detail strings appended by rule 4. -/
def rule4Details (manufacturer : String) : List String :=
  if manufacturer ≠ "" ∧ 3 < manufacturer.length ∧ manufacturer ≠ "Unknown" then
    ["✓ Manufacturer: " ++ manufacturer]
  else []

/-- The detail strings appended by the final determination, as a function
of the state entering it. -/
def finalizeDetails (s : VState) : List String :=
  if s.status = Status.suspicious then
    if s.confidence < 40 then
      ["Unable to verify. Recommend checking with pharmacist."]
    else
      ["Verification inconclusive. Check with pharmacist if unsure."]
  else []

/-! ## Reminder generator (src/app.py, `generate_medicine_reminders`) -/

/-- A `Reminder` row as constructed by `generate_medicine_reminders`
(fields `medicine_id`, `user_id`, `reminder_time`, `status`); instants
are modelled as integer seconds on an abstract timeline, since the
source only ever adds `timedelta(days=…, hours=…)` to a base instant and
compares instants. -/
structure PyReminder where
  medicine_id : Nat
  user_id : Nat
  reminder_time : Int
  status : String
deriving DecidableEq, Repr

/-- Python `range(n)` for a possibly negative `int` argument, as a list
of integers (empty when `n ≤ 0`). -/
def intRange (n : Int) : List Int :=
  (List.range n.toNat).map Int.ofNat

/-- The times-per-day parse in `generate_medicine_reminders`
(src/app.py lines 307-312): if the lowered timing string contains `'x'`,
apply Python `int` to the text before the first `'x'`, defaulting to 1
on a `ValueError`; otherwise 1. -/
def parseTimesPerDay (timing : String) : Int :=
  let t := pyLower timing
  if containsTok t "x" then
    match pythonInt ((pySplit t 'x').headD "") with
    | some n => n
    | none => 1
  else 1

/-- Slot generation core of `generate_medicine_reminders` (src/app.py
lines 307-331).  `nowStart` models the single `datetime.now()` read used
as the base instant, `nowUtc` the `datetime.utcnow()` read used as the
emission cutoff; on a machine whose local clock equals UTC the two
coincide.  For each day offset and slot index, the hour-of-day is
`6 + slot * (16 // max(1, times_per_day))` and the reminder instant is
the base plus `day` days plus `hour` hours; a `Reminder` row is created
only when that instant is strictly after the cutoff.  Database
persistence and job scheduling of the produced rows are outside this
model. -/
def generate_medicine_reminders (nowStart nowUtc : Int) (medicine_id user_id : Nat)
    (timing : String) (duration_days : Int) : List PyReminder :=
  let times_per_day := parseTimesPerDay timing
  (intRange duration_days).flatMap (fun day =>
    (intRange times_per_day).filterMap (fun slot =>
      let hour : Int := 6 + slot * (16 / max 1 times_per_day)
      let reminder_time := nowStart + day * 86400 + hour * 3600
      if nowUtc < reminder_time then
        some ⟨medicine_id, user_id, reminder_time, "pending"⟩
      else none))

/-! ## Scheduler (src/scheduler.py) -/

/-- A job in the scheduler's in-memory job table, as registered by
`schedule_reminder`. -/
structure ScheduledJob where
  job_id : String
  reminder_id : Nat
  medicine_name : String
  user_id : Nat
  scheduled_time : Int
deriving DecidableEq, Repr

/-- Model of APScheduler's `add_job(..., id=job_id,
replace_existing=True)` acting on the job table: any existing job with
the same id is replaced by the new job, per the library's documented
`replace_existing` semantics. -/
def addJobReplace (jobs : List ScheduledJob) (j : ScheduledJob) : List ScheduledJob :=
  (jobs.filter (fun j0 => !(j0.job_id = j.job_id : Bool))) ++ [j]

/-- `schedule_reminder` (src/scheduler.py lines 36-58): builds the job id
`"reminder_" + str(reminder_id)` and registers a date-triggered job with
`replace_existing=True`. -/
def schedule_reminder (jobs : List ScheduledJob) (reminder_id : Nat)
    (medicine_name : String) (user_id : Nat) (scheduled_time : Int) : List ScheduledJob :=
  let job_id := "reminder_" ++ toString reminder_id
  addJobReplace jobs ⟨job_id, reminder_id, medicine_name, user_id, scheduled_time⟩

end Mediguard


namespace Mediguard

/-! ## Helper lemmas about the rule engine steps -/

theorem strptime_some_ne {s : String} {d : Date} (h : strptimeYMD s = some d) :
    s ≠ "" ∧ s ≠ "Not detected" := by
  constructor
  · rintro rfl
    rw [show strptimeYMD "" = none from by decide] at h
    exact Option.noConfusion h
  · rintro rfl
    rw [show strptimeYMD "Not detected" = none from by decide] at h
    exact Option.noConfusion h

theorem rule1_bounds (codes : List String) (s : VState) :
    0 ≤ (rule1 codes s).confidence ∧ (rule1 codes s).confidence ≤ 100 := by
  cases codes with
  | nil => norm_num [rule1]
  | cons c cs =>
    simp only [rule1]
    split_ifs <;> norm_num

theorem rule1_details_eq (codes : List String) (s : VState) :
    (rule1 codes s).details = s.details ++ rule1Details codes := by
  cases codes with
  | nil => rfl
  | cons c cs =>
    simp only [rule1, rule1Details]
    split_ifs <;> rfl

theorem rule2_status (batch : String) (s : VState) :
    (rule2 batch s).status = s.status := by
  simp only [rule2]
  split_ifs <;> rfl

theorem rule2_conf_cases (batch : String) (s : VState) :
    (rule2 batch s).confidence = s.confidence ∨
    (rule2 batch s).confidence = min 95 (s.confidence + 10) ∨
    ((rule2 batch s).confidence = max (s.confidence - 10) 40 ∧ 40 < s.confidence) := by
  simp only [rule2]
  split_ifs with h1 h2 h3
  · right; left; rfl
  · right; right; exact ⟨rfl, h3⟩
  · left; rfl
  · left; rfl

theorem rule2_details_eq (batch : String) (s : VState) :
    (rule2 batch s).details = s.details ++ rule2Details batch := by
  simp only [rule2, rule2Details]
  split_ifs <;> simp

theorem rule3_status_cases (now : PyDateTime) (e : String) (s : VState) :
    (rule3 now e s).status = s.status ∨ (rule3 now e s).status = Status.fake := by
  unfold rule3
  by_cases hg : e ≠ "" ∧ e ≠ "Not detected"
  · rcases hd : strptimeYMD e with - | d
    · simp [hg, hd]
    · by_cases hlt : dtLt now d.toDateTime = true
      · simp [hg, hd, hlt]
      · simp [hg, hd, hlt]
  · simp [rule3, hg]

theorem rule3_conf_cases (now : PyDateTime) (e : String) (s : VState) :
    (rule3 now e s).confidence = s.confidence ∨
    (rule3 now e s).confidence = min 95 (s.confidence + 5) ∨
    (rule3 now e s).confidence = 95 := by
  unfold rule3
  by_cases hg : e ≠ "" ∧ e ≠ "Not detected"
  · rcases hd : strptimeYMD e with - | d
    · simp [hg, hd]
    · by_cases hlt : dtLt now d.toDateTime = true
      · simp [hg, hd, hlt]
      · simp [hg, hd, hlt]
  · simp [rule3, hg]

theorem rule3_conf_95 (now : PyDateTime) (e : String) {s : VState}
    (h : s.confidence = 95) : (rule3 now e s).confidence = 95 := by
  rcases rule3_conf_cases now e s with hc | hc | hc <;> rw [hc] <;> omega

theorem rule3_fake_status (now : PyDateTime) (e : String) {s : VState}
    (h : s.status = Status.fake) : (rule3 now e s).status = Status.fake := by
  rcases rule3_status_cases now e s with hs | hs <;> rw [hs]
  exact h

theorem rule3_expired_eq (now : PyDateTime) {e : String} {d : Date} (s : VState)
    (hd : strptimeYMD e = some d) (hpast : dtLt now d.toDateTime = false) :
    rule3 now e s =
      ⟨Status.fake, 95, s.details ++ ["✗ Medicine already expired on " ++ e]⟩ := by
  have hg := strptime_some_ne hd
  unfold rule3
  simp only [if_pos hg, hd, hpast]
  rfl

theorem rule3_future_eq (now : PyDateTime) {e : String} {d : Date} (s : VState)
    (hd : strptimeYMD e = some d) (hfut : dtLt now d.toDateTime = true) :
    rule3 now e s =
      { s with confidence := min 95 (s.confidence + 5),
               details := s.details ++ ["✓ Expiry valid until " ++ e] } := by
  have hg := strptime_some_ne hd
  unfold rule3
  simp only [if_pos hg, hd, hfut]
  rfl

theorem rule3_details_eq (now : PyDateTime) (e : String) (s : VState) :
    (rule3 now e s).details = s.details ++ rule3Details now e := by
  unfold rule3 rule3Details
  by_cases hg : e ≠ "" ∧ e ≠ "Not detected"
  · rcases hd : strptimeYMD e with - | d
    · simp [hg, hd]
    · by_cases hlt : dtLt now d.toDateTime = true
      · simp [hg, hd, hlt]
      · simp [hg, hd, hlt]
  · simp [hg]

theorem rule4_status (m : String) (s : VState) :
    (rule4 m s).status = s.status := by
  unfold rule4
  split_ifs <;> rfl

theorem rule4_conf_cases (m : String) (s : VState) :
    (rule4 m s).confidence = s.confidence ∨
    (rule4 m s).confidence = min 95 (s.confidence + 5) := by
  unfold rule4
  split_ifs
  · right; rfl
  · left; rfl

theorem rule4_conf_95 (m : String) {s : VState}
    (h : s.confidence = 95) : (rule4 m s).confidence = 95 := by
  rcases rule4_conf_cases m s with hc | hc <;> rw [hc] <;> omega

theorem rule4_details_eq (m : String) (s : VState) :
    (rule4 m s).details = s.details ++ rule4Details m := by
  unfold rule4 rule4Details
  split_ifs <;> simp

theorem finalize_status (s : VState) : (finalizeStep s).status = s.status := by
  unfold finalizeStep
  split_ifs <;> rfl

theorem finalize_conf (s : VState) : (finalizeStep s).confidence = s.confidence := by
  unfold finalizeStep
  split_ifs <;> rfl

theorem finalize_details_eq (s : VState) :
    (finalizeStep s).details = s.details ++ finalizeDetails s := by
  unfold finalizeStep finalizeDetails
  split_ifs <;> simp

end Mediguard

namespace Mediguard

/-! ## Further helper lemmas -/

theorem rule2_wf_conf {batch : String} (s : VState)
    (hb1 : batch ≠ "" ∧ batch ≠ "UNKNOWN")
    (hb2 : 8 ≤ batch.length ∧ (batch.front.isAlpha = true ∨ batch.front.isDigit = true)) :
    (rule2 batch s).confidence = min 95 (s.confidence + 10) := by
  unfold rule2
  rw [if_pos hb1, if_pos hb2]

theorem rule2_empty (s : VState) : rule2 "" s = s := by
  simp [rule2]

theorem rule3_conf_unchanged (now : PyDateTime) {e : String} (s : VState)
    (hno : e = "" ∨ e = "Not detected" ∨ strptimeYMD e = none) :
    (rule3 now e s).confidence = s.confidence := by
  rcases hno with rfl | rfl | hparse
  · simp [rule3]
  · simp [rule3]
  · unfold rule3
    by_cases hg : e ≠ "" ∧ e ≠ "Not detected"
    · simp [hg, hparse]
    · simp [hg]

theorem rule4_noapply {m : String} (s : VState)
    (hm : m = "" ∨ m.length ≤ 3 ∨ m = "Unknown") :
    rule4 m s = s := by
  unfold rule4
  rw [if_neg]
  rintro ⟨h1, h2, h3⟩
  rcases hm with rfl | hlen | rfl
  · exact h1 rfl
  · omega
  · exact h3 rfl

theorem rule1Details_length (codes : List String) :
    (rule1Details codes).length = 1 := by
  cases codes with
  | nil => rfl
  | cons c cs =>
    simp only [rule1Details]
    split_ifs <;> rfl

theorem rule2Details_length (batch : String) : (rule2Details batch).length ≤ 1 := by
  unfold rule2Details
  split_ifs <;> simp

theorem rule3Details_length (now : PyDateTime) (e : String) :
    (rule3Details now e).length ≤ 1 := by
  unfold rule3Details
  by_cases hg : e ≠ "" ∧ e ≠ "Not detected"
  · rcases hd : strptimeYMD e with - | d
    · simp [hg, hd]
    · by_cases hlt : dtLt now d.toDateTime = true <;> simp [hg, hd, hlt]
  · simp [hg]

theorem rule4Details_length (m : String) : (rule4Details m).length ≤ 1 := by
  unfold rule4Details
  split_ifs <;> simp

theorem finalizeDetails_length (s : VState) : (finalizeDetails s).length ≤ 1 := by
  unfold finalizeDetails
  split_ifs <;> simp

/-! ## Claims about the authenticity rule engine -/

/-- Claim C1: for every scan whose expiry string parses as a calendar
date that is on or before the current time, `verify_medicine_authenticity`
returns status `fake` with confidence 95, regardless of the step-1 code
classification and of the batch and manufacturer fields. -/
theorem C1_expired_expiry_forces_fake (now : PyDateTime) (b : BarcodeData) (d : Date)
    (hd : strptimeYMD b.expiry = some d)
    (hpast : dtLt now d.toDateTime = false) :
    (verify_medicine_authenticity now b).status = Status.fake ∧
      (verify_medicine_authenticity now b).confidence = 95 := by
  have h3 := rule3_expired_eq now
    (s := rule2 b.batch (rule1 b.codes ⟨Status.suspicious, 50, []⟩)) hd hpast
  have h3s : (rule3 now b.expiry
      (rule2 b.batch (rule1 b.codes ⟨Status.suspicious, 50, []⟩))).status = Status.fake := by
    rw [h3]
  have h3c : (rule3 now b.expiry
      (rule2 b.batch (rule1 b.codes ⟨Status.suspicious, 50, []⟩))).confidence = 95 := by
    rw [h3]
  unfold verify_medicine_authenticity verifySteps14
  refine ⟨?_, ?_⟩
  · rw [finalize_status, rule4_status]
    exact h3s
  · rw [finalize_conf]
    exact rule4_conf_95 _ h3c

/-- Witness for C1: the demo barcode with a well-formed batch, a known
manufacturer and an expired date is classified `fake` at confidence 95. -/
theorem C1_witness :
    strptimeYMD "2020-01-01" = some ⟨2020, 1, 1⟩ ∧
    dtLt ⟨2024, 6, 1, 12, 0, 0, 0⟩ (Date.toDateTime ⟨2020, 1, 1⟩) = false ∧
    (verify_medicine_authenticity ⟨2024, 6, 1, 12, 0, 0, 0⟩
        ⟨["MG-VALID-ABC123-BATCH2024"], "BATCH2024001", "2020-01-01",
          "MediCorp Pharma"⟩).status = Status.fake ∧
    (verify_medicine_authenticity ⟨2024, 6, 1, 12, 0, 0, 0⟩
        ⟨["MG-VALID-ABC123-BATCH2024"], "BATCH2024001", "2020-01-01",
          "MediCorp Pharma"⟩).confidence = 95 :=
  ⟨by decide, by decide,
    (C1_expired_expiry_forces_fake _ _ ⟨2020, 1, 1⟩ (by decide) (by decide)).1,
    (C1_expired_expiry_forces_fake _ _ ⟨2020, 1, 1⟩ (by decide) (by decide)).2⟩

/-- Claim C2 is false as stated: with first code "MG-VALID-1" (contains
the valid marker), future expiry "2099-01-01", but malformed batch "B"
and empty manufacturer, the returned confidence is 90, not ≥ 95 (the
malformed-batch penalty takes 95 to 85 and the future-expiry bonus only
recovers to 90). -/
theorem C2_counterexample :
    (containsTok (pyUpper "MG-VALID-1") "MG-VALID" ||
      pyStartsWith (pyUpper "MG-VALID-1") "VALID") = true ∧
    strptimeYMD "2099-01-01" = some ⟨2099, 1, 1⟩ ∧
    dtLt ⟨2024, 1, 1, 0, 0, 0, 0⟩ (Date.toDateTime ⟨2099, 1, 1⟩) = true ∧
    (verify_medicine_authenticity ⟨2024, 1, 1, 0, 0, 0, 0⟩
        ⟨["MG-VALID-1"], "B", "2099-01-01", ""⟩).confidence = 90 ∧
    ¬ 95 ≤ (verify_medicine_authenticity ⟨2024, 1, 1, 0, 0, 0, 0⟩
        ⟨["MG-VALID-1"], "B", "2099-01-01", ""⟩).confidence := by
  decide

/-- Claim C2 (amended): for every scan whose first code contains a
valid-marker token and whose expiry parses to a date strictly after the
current time, `verify_medicine_authenticity` returns status `valid` with
confidence ≥ 90, for any batch and manufacturer values (95 is not always
reached: a present but malformed batch lowers it to 90). -/
theorem C2_valid_marker_future_expiry (now : PyDateTime) (b : BarcodeData)
    (c : String) (rest : List String) (d : Date)
    (hc : b.codes = c :: rest)
    (hv : (containsTok (pyUpper c) "MG-VALID" || pyStartsWith (pyUpper c) "VALID") = true)
    (hd : strptimeYMD b.expiry = some d)
    (hfut : dtLt now d.toDateTime = true) :
    (verify_medicine_authenticity now b).status = Status.valid ∧
      90 ≤ (verify_medicine_authenticity now b).confidence := by
  have h1 : rule1 b.codes ⟨Status.suspicious, 50, []⟩ =
      ⟨Status.valid, 95, ["✓ Valid MediGuard barcode format detected"]⟩ := by
    rw [hc]
    simp [rule1, hv]
  have h1c : (rule1 b.codes ⟨Status.suspicious, 50, []⟩).confidence = 95 := by
    rw [h1]
  have h2s : (rule2 b.batch (rule1 b.codes ⟨Status.suspicious, 50, []⟩)).status
      = Status.valid := by
    rw [rule2_status, h1]
  have h2c := rule2_conf_cases b.batch (rule1 b.codes ⟨Status.suspicious, 50, []⟩)
  have h3 := rule3_future_eq now
    (s := rule2 b.batch (rule1 b.codes ⟨Status.suspicious, 50, []⟩)) hd hfut
  have h3s : (rule3 now b.expiry
      (rule2 b.batch (rule1 b.codes ⟨Status.suspicious, 50, []⟩))).status
      = Status.valid := by
    rw [h3]
    exact h2s
  have h3c : (rule3 now b.expiry
      (rule2 b.batch (rule1 b.codes ⟨Status.suspicious, 50, []⟩))).confidence
      = min 95 ((rule2 b.batch (rule1 b.codes ⟨Status.suspicious, 50, []⟩)).confidence + 5) := by
    rw [h3]
  have h4c := rule4_conf_cases b.manufacturer
    (rule3 now b.expiry (rule2 b.batch (rule1 b.codes ⟨Status.suspicious, 50, []⟩)))
  unfold verify_medicine_authenticity verifySteps14
  refine ⟨?_, ?_⟩
  · rw [finalize_status, rule4_status]
    exact h3s
  · rw [finalize_conf]
    omega

/-- Witness for the amended C2 at the valid demo barcode with malformed
batch "B": status `valid` and confidence ≥ 90. -/
theorem C2_witness :
    (verify_medicine_authenticity ⟨2024, 1, 1, 0, 0, 0, 0⟩
        ⟨["MG-VALID-1"], "B", "2099-01-01", ""⟩).status = Status.valid ∧
      90 ≤ (verify_medicine_authenticity ⟨2024, 1, 1, 0, 0, 0, 0⟩
        ⟨["MG-VALID-1"], "B", "2099-01-01", ""⟩).confidence :=
  C2_valid_marker_future_expiry _ _ "MG-VALID-1" [] ⟨2099, 1, 1⟩
    rfl (by decide) (by decide) (by decide)

/-- Claim C3: when step 1 classifies the first code as fake (a
fake/fraud marker matches and the valid marker does not), the final
status is fake: no later step changes it. -/
theorem C3_step1_fake_is_terminal (now : PyDateTime) (b : BarcodeData)
    (c : String) (rest : List String)
    (hc : b.codes = c :: rest)
    (hnv : (containsTok (pyUpper c) "MG-VALID" || pyStartsWith (pyUpper c) "VALID") = false)
    (hf : (containsTok (pyUpper c) "FAKE" || containsTok (pyUpper c) "FRAUD" ||
      containsTok (pyUpper c) "TEST-FAKE") = true) :
    (verify_medicine_authenticity now b).status = Status.fake := by
  have h1 : (rule1 b.codes ⟨Status.suspicious, 50, []⟩).status = Status.fake := by
    rw [hc]
    simp [rule1, hnv, hf]
  have h2 : (rule2 b.batch (rule1 b.codes ⟨Status.suspicious, 50, []⟩)).status
      = Status.fake := by
    rw [rule2_status]
    exact h1
  have h3 := rule3_fake_status now b.expiry h2
  unfold verify_medicine_authenticity verifySteps14
  rw [finalize_status, rule4_status]
  exact h3

/-- Witness for C3: a "TEST-FAKE-123" code with well-formed batch and a
future expiry still ends as `fake`. -/
theorem C3_witness :
    (verify_medicine_authenticity ⟨2024, 1, 1, 0, 0, 0, 0⟩
        ⟨["TEST-FAKE-123"], "BATCH2024001", "2099-01-01", "MediCorp Pharma"⟩).status
      = Status.fake :=
  C3_step1_fake_is_terminal _ _ "TEST-FAKE-123" [] rfl (by decide) (by decide)

/-- Claim C4: for every scan and at every current time, the confidence
returned by `verify_medicine_authenticity` is an integer in [0, 100]. -/
theorem C4_confidence_in_range (now : PyDateTime) (b : BarcodeData) :
    0 ≤ (verify_medicine_authenticity now b).confidence ∧
      (verify_medicine_authenticity now b).confidence ≤ 100 := by
  have h1 := rule1_bounds b.codes ⟨Status.suspicious, 50, []⟩
  have h2 := rule2_conf_cases b.batch (rule1 b.codes ⟨Status.suspicious, 50, []⟩)
  have h3 := rule3_conf_cases now b.expiry
    (rule2 b.batch (rule1 b.codes ⟨Status.suspicious, 50, []⟩))
  have h4 := rule4_conf_cases b.manufacturer
    (rule3 now b.expiry (rule2 b.batch (rule1 b.codes ⟨Status.suspicious, 50, []⟩)))
  unfold verify_medicine_authenticity verifySteps14
  rw [finalize_conf]
  omega

end Mediguard

namespace Mediguard

/-- Claim C5 is false as stated: for the scan with code "ABC123XY" and
empty batch, expiry and manufacturer, the details sequence has exactly
one entry (from step 1); steps 2, 3, 4 and 5 append nothing, so it is
not the case that each of the five steps appends at least one detail. -/
theorem C5_counterexample :
    (verify_medicine_authenticity ⟨2024, 1, 1, 0, 0, 0, 0⟩
        ⟨["ABC123XY"], "", "", ""⟩).details.length = 1 ∧
    rule2Details "" = [] ∧
    rule3Details ⟨2024, 1, 1, 0, 0, 0, 0⟩ "" = [] ∧
    rule4Details "" = [] := by
  decide

/-- Claim C5 (amended): the details sequence of
`verify_medicine_authenticity` is the concatenation, in step order, of
each step's contribution; step 1 always contributes exactly one detail,
while steps 2-5 contribute at most one each (and may contribute none
when their guard does not hold). -/
theorem C5_details_in_step_order (now : PyDateTime) (b : BarcodeData) :
    (verify_medicine_authenticity now b).details =
      rule1Details b.codes ++ rule2Details b.batch ++ rule3Details now b.expiry ++
        rule4Details b.manufacturer ++ finalizeDetails (verifySteps14 now b) ∧
    (rule1Details b.codes).length = 1 ∧
    (rule2Details b.batch).length ≤ 1 ∧
    (rule3Details now b.expiry).length ≤ 1 ∧
    (rule4Details b.manufacturer).length ≤ 1 ∧
    (finalizeDetails (verifySteps14 now b)).length ≤ 1 := by
  refine ⟨?_, rule1Details_length b.codes, rule2Details_length b.batch,
    rule3Details_length now b.expiry, rule4Details_length b.manufacturer,
    finalizeDetails_length _⟩
  unfold verify_medicine_authenticity
  rw [finalize_details_eq]
  unfold verifySteps14
  rw [rule4_details_eq, rule3_details_eq, rule2_details_eq, rule1_details_eq]
  simp [List.append_assoc]

/-- Claim C10 is false as stated: with fake code "FAKE-XYZ-12345",
well-formed batch "BATCH2024001" and past expiry "2020-01-01", the
confidence is 95 — but the same scan with no batch also reports 95 (the
expired-expiry rule forces confidence to 95), so the batch variant is
not strictly lower. -/
theorem C10_counterexample :
    containsTok (pyUpper "FAKE-XYZ-12345") "FAKE" = true ∧
    (8 ≤ ("BATCH2024001" : String).length ∧
      ("BATCH2024001" : String).front.isAlpha = true) ∧
    (verify_medicine_authenticity ⟨2024, 6, 1, 12, 0, 0, 0⟩
        ⟨["FAKE-XYZ-12345"], "BATCH2024001", "2020-01-01", ""⟩).confidence = 95 ∧
    (verify_medicine_authenticity ⟨2024, 6, 1, 12, 0, 0, 0⟩
        ⟨["FAKE-XYZ-12345"], "", "2020-01-01", ""⟩).confidence = 95 ∧
    ¬ (verify_medicine_authenticity ⟨2024, 6, 1, 12, 0, 0, 0⟩
        ⟨["FAKE-XYZ-12345"], "BATCH2024001", "2020-01-01", ""⟩).confidence <
      (verify_medicine_authenticity ⟨2024, 6, 1, 12, 0, 0, 0⟩
        ⟨["FAKE-XYZ-12345"], "", "2020-01-01", ""⟩).confidence := by
  decide

theorem rule3_parsed_conf (now : PyDateTime) {e : String} {d : Date} (s : VState)
    (hd : strptimeYMD e = some d) (hconf : 90 ≤ s.confidence) :
    (rule3 now e s).confidence = 95 := by
  cases hb : dtLt now d.toDateTime with
  | false =>
    rw [rule3_expired_eq now s hd hb]
  | true =>
    rw [rule3_future_eq now s hd hb]
    show min 95 (s.confidence + 5) = 95
    omega

theorem rule4_apply_conf {m : String} (s : VState)
    (hm : m ≠ "" ∧ 3 < m.length ∧ m ≠ "Unknown") :
    (rule4 m s).confidence = min 95 (s.confidence + 5) := by
  unfold rule4
  rw [if_pos hm]

/-- Claim C10 (amended): a step-1 fake scan gets confidence 99, and a
present well-formed batch caps the final confidence at 95; the scan with
the batch removed reports the strictly higher 99 exactly when the expiry
check does not fire (absent, sentinel, or unparseable expiry) and the
manufacturer bonus does not apply — in every other case (the expiry
parses, or the manufacturer bonus applies) the no-batch variant is also
capped at 95 and the two variants are equal. -/
theorem C10_fake_with_batch_confidence (now : PyDateTime) (b : BarcodeData)
    (c : String) (rest : List String)
    (hc : b.codes = c :: rest)
    (hnv : (containsTok (pyUpper c) "MG-VALID" || pyStartsWith (pyUpper c) "VALID") = false)
    (hf : (containsTok (pyUpper c) "FAKE" || containsTok (pyUpper c) "FRAUD" ||
      containsTok (pyUpper c) "TEST-FAKE") = true)
    (hb1 : b.batch ≠ "" ∧ b.batch ≠ "UNKNOWN")
    (hb2 : 8 ≤ b.batch.length ∧ (b.batch.front.isAlpha = true ∨ b.batch.front.isDigit = true)) :
    (rule1 b.codes ⟨Status.suspicious, 50, []⟩).confidence = 99 ∧
    (verify_medicine_authenticity now b).confidence = 95 ∧
    ((b.expiry = "" ∨ b.expiry = "Not detected" ∨ strptimeYMD b.expiry = none) →
      (b.manufacturer = "" ∨ b.manufacturer.length ≤ 3 ∨ b.manufacturer = "Unknown") →
      (verify_medicine_authenticity now { b with batch := "" }).confidence = 99 ∧
        (verify_medicine_authenticity now b).confidence <
          (verify_medicine_authenticity now { b with batch := "" }).confidence) ∧
    (((∃ d, strptimeYMD b.expiry = some d) ∨
        (b.manufacturer ≠ "" ∧ 3 < b.manufacturer.length ∧ b.manufacturer ≠ "Unknown")) →
      (verify_medicine_authenticity now { b with batch := "" }).confidence = 95 ∧
        (verify_medicine_authenticity now b).confidence =
          (verify_medicine_authenticity now { b with batch := "" }).confidence) := by
  have h1c : (rule1 b.codes ⟨Status.suspicious, 50, []⟩).confidence = 99 := by
    rw [hc]
    simp [rule1, hnv, hf]
  have h2c : (rule2 b.batch (rule1 b.codes ⟨Status.suspicious, 50, []⟩)).confidence = 95 := by
    rw [rule2_wf_conf _ hb1 hb2, h1c]
    decide
  have h3c : (rule3 now b.expiry
      (rule2 b.batch (rule1 b.codes ⟨Status.suspicious, 50, []⟩))).confidence = 95 :=
    rule3_conf_95 now b.expiry h2c
  have hmain : (verify_medicine_authenticity now b).confidence = 95 := by
    unfold verify_medicine_authenticity verifySteps14
    rw [finalize_conf]
    exact rule4_conf_95 _ h3c
  refine ⟨h1c, hmain, fun hexp hman => ?_, fun hfire => ?_⟩
  · have hnb : (verify_medicine_authenticity now { b with batch := "" }).confidence = 99 := by
      show (finalizeStep (rule4 b.manufacturer (rule3 now b.expiry
        (rule2 "" (rule1 b.codes ⟨Status.suspicious, 50, []⟩))))).confidence = 99
      rw [finalize_conf, rule4_noapply _ hman, rule2_empty,
        rule3_conf_unchanged now _ hexp]
      exact h1c
    refine ⟨hnb, ?_⟩
    rw [hmain, hnb]
    norm_num
  · have hnb95 : (verify_medicine_authenticity now { b with batch := "" }).confidence = 95 := by
      show (finalizeStep (rule4 b.manufacturer (rule3 now b.expiry
        (rule2 "" (rule1 b.codes ⟨Status.suspicious, 50, []⟩))))).confidence = 95
      rw [finalize_conf, rule2_empty]
      rcases hfire with ⟨d, hd⟩ | hm
      · exact rule4_conf_95 _
          (rule3_parsed_conf now (rule1 b.codes ⟨Status.suspicious, 50, []⟩) hd (by omega))
      · rw [rule4_apply_conf _ hm]
        have h3cases := rule3_conf_cases now b.expiry (rule1 b.codes ⟨Status.suspicious, 50, []⟩)
        omega
    refine ⟨hnb95, ?_⟩
    rw [hmain, hnb95]

/-- Witness for the amended C10: with fake code "FAKE-1" and well-formed
batch, and expiry and manufacturer absent, the batch variant reports 95
and the no-batch variant the strictly higher 99; with the parseable
expiry "2020-01-01" instead, both variants report the same confidence. -/
theorem C10_witness :
    (verify_medicine_authenticity ⟨2024, 6, 1, 12, 0, 0, 0⟩
        ⟨["FAKE-1"], "BATCH2024001", "", ""⟩).confidence = 95 ∧
    (verify_medicine_authenticity ⟨2024, 6, 1, 12, 0, 0, 0⟩
        ⟨["FAKE-1"], "", "", ""⟩).confidence = 99 ∧
    (verify_medicine_authenticity ⟨2024, 6, 1, 12, 0, 0, 0⟩
        ⟨["FAKE-1"], "BATCH2024001", "2020-01-01", ""⟩).confidence =
      (verify_medicine_authenticity ⟨2024, 6, 1, 12, 0, 0, 0⟩
        ⟨["FAKE-1"], "", "2020-01-01", ""⟩).confidence :=
  ⟨(C10_fake_with_batch_confidence ⟨2024, 6, 1, 12, 0, 0, 0⟩
      ⟨["FAKE-1"], "BATCH2024001", "", ""⟩ "FAKE-1" [] rfl (by decide) (by decide)
      (by decide) (by decide)).2.1,
   ((C10_fake_with_batch_confidence ⟨2024, 6, 1, 12, 0, 0, 0⟩
      ⟨["FAKE-1"], "BATCH2024001", "", ""⟩ "FAKE-1" [] rfl (by decide) (by decide)
      (by decide) (by decide)).2.2.1 (Or.inl rfl) (Or.inl rfl)).1,
   ((C10_fake_with_batch_confidence ⟨2024, 6, 1, 12, 0, 0, 0⟩
      ⟨["FAKE-1"], "BATCH2024001", "2020-01-01", ""⟩ "FAKE-1" [] rfl (by decide) (by decide)
      (by decide) (by decide)).2.2.2 (Or.inl ⟨⟨2020, 1, 1⟩, by decide⟩)).2⟩

end Mediguard

namespace Mediguard

/-! ## Helper lemmas about the reminder generator and scheduler -/

theorem mem_intRange_nonneg {x n : Int} (h : x ∈ intRange n) : 0 ≤ x := by
  simp only [intRange, List.mem_map, List.mem_range] at h
  obtain ⟨k, -, rfl⟩ := h
  exact Int.ofNat_nonneg k

theorem intRange_nonpos {n : Int} (h : n ≤ 0) : intRange n = [] := by
  unfold intRange
  rw [Int.toNat_of_nonpos h]
  rfl

theorem flatMap_const_nil {α β : Type} (l : List α) :
    l.flatMap (fun _ => ([] : List β)) = [] := by
  induction l <;> simp [*]

/-! ## Claims about the reminder generator -/

/-- Claim C6: for timing "3x/day" and 2 days generated at instant T (one
clock, so the base instant and the emission cutoff coincide), exactly 6
reminder slots are produced, in (day, slot) order
(0,0),(0,1),(0,2),(1,0),(1,1),(1,2), with hour-of-day offsets 6, 11, 16
on each day (16 // 3 = 5); no slot is omitted since every computed
instant is at least 6 hours after T, hence strictly after the cutoff. -/
theorem C6_three_per_day_two_days (T : Int) (mid uid : Nat) :
    generate_medicine_reminders T T mid uid "3x/day" 2 =
      [⟨mid, uid, T + 6 * 3600, "pending"⟩,
       ⟨mid, uid, T + 11 * 3600, "pending"⟩,
       ⟨mid, uid, T + 16 * 3600, "pending"⟩,
       ⟨mid, uid, T + 86400 + 6 * 3600, "pending"⟩,
       ⟨mid, uid, T + 86400 + 11 * 3600, "pending"⟩,
       ⟨mid, uid, T + 86400 + 16 * 3600, "pending"⟩] := by
  have hp : parseTimesPerDay "3x/day" = 3 := by decide
  simp only [generate_medicine_reminders, hp]
  rw [show ((16 : Int) / max 1 3) = 5 from by decide,
    show intRange 2 = [0, 1] from by decide,
    show intRange 3 = [0, 1, 2] from by decide]
  simp only [List.flatMap_cons, List.flatMap_nil, List.filterMap_cons,
    List.filterMap_nil, List.append_nil]
  norm_num
  rw [if_pos (show T < T + 86400 + 21600 by omega),
    if_pos (show T < T + 86400 + 39600 by omega),
    if_pos (show T < T + 86400 + 57600 by omega)]

/-- Claim C7: every reminder record emitted by the generator has a
firing instant strictly after the current instant at generation time —
both after the `utcnow` cutoff read and after the `now` base read. -/
theorem C7_emitted_slots_strictly_future (nowStart nowUtc : Int) (mid uid : Nat)
    (timing : String) (dur : Int) (r : PyReminder)
    (hr : r ∈ generate_medicine_reminders nowStart nowUtc mid uid timing dur) :
    nowUtc < r.reminder_time ∧ nowStart < r.reminder_time := by
  simp only [generate_medicine_reminders, List.mem_flatMap, List.mem_filterMap] at hr
  obtain ⟨day, hday, slot, hslot, hif⟩ := hr
  have hday0 : 0 ≤ day := mem_intRange_nonneg hday
  have hslot0 : 0 ≤ slot := mem_intRange_nonneg hslot
  have hq : 0 ≤ (16 : Int) / max 1 (parseTimesPerDay timing) :=
    Int.ediv_nonneg (by norm_num) (by omega)
  by_cases hcond : nowUtc < nowStart + day * 86400 +
      (6 + slot * ((16 : Int) / max 1 (parseTimesPerDay timing))) * 3600
  · rw [if_pos hcond] at hif
    obtain rfl := Option.some.inj hif
    have h1 : 0 ≤ day * 86400 := mul_nonneg hday0 (by norm_num)
    have h2 : 0 ≤ slot * ((16 : Int) / max 1 (parseTimesPerDay timing)) :=
      mul_nonneg hslot0 hq
    constructor
    · exact hcond
    · show nowStart < nowStart + day * 86400 +
        (6 + slot * ((16 : Int) / max 1 (parseTimesPerDay timing))) * 3600
      nlinarith
  · rw [if_neg hcond] at hif
    exact absurd hif (by simp)

/-- Witness for C7 at a concrete slot of "2x/day" for one day from
instant 0: the first emitted slot fires at 21600 > 0. -/
theorem C7_witness :
    (0 : Int) < (⟨1, 1, 21600, "pending"⟩ : PyReminder).reminder_time :=
  (C7_emitted_slots_strictly_future 0 0 1 1 "2x/day" 1
    ⟨1, 1, 21600, "pending"⟩ (by decide)).1

/-- Claim C8 is false as stated: the timing string "0x/day" has a
leading number before the multiplier marker, and the generator parses
times-per-day 0 from it — the parsed value can be zero (and for
"-2x/day" even negative), not always positive. -/
theorem C8_counterexample :
    parseTimesPerDay "0x/day" = 0 ∧ parseTimesPerDay "-2x/day" = -2 := by
  decide

/-- Claim C8 (amended): the generator's times-per-day value is the
integer read before the first 'x' of the lowered timing string when that
parse succeeds, and defaults to 1 when the marker is absent or the
number is unparseable; the parsed value may however be zero or negative,
in which case the generator emits no reminder slots at all (and the
hour-spacing division is guarded by max(1, ·)). -/
theorem C8_times_per_day_parse (timing : String) :
    (containsTok (pyLower timing) "x" = false → parseTimesPerDay timing = 1) ∧
    (∀ n : Int, containsTok (pyLower timing) "x" = true →
      pythonInt ((pySplit (pyLower timing) 'x').headD "") = some n →
      parseTimesPerDay timing = n) ∧
    (pythonInt ((pySplit (pyLower timing) 'x').headD "") = none →
      parseTimesPerDay timing = 1) ∧
    (∀ (nowStart nowUtc : Int) (mid uid : Nat) (dur : Int),
      parseTimesPerDay timing ≤ 0 →
      generate_medicine_reminders nowStart nowUtc mid uid timing dur = []) := by
  refine ⟨fun hno => ?_, fun n hx hp => ?_, fun hp => ?_, fun nowS nowU mid uid dur hle => ?_⟩
  · simp [parseTimesPerDay, hno]
  · simp only [parseTimesPerDay]
    rw [if_pos hx, hp]
  · simp only [parseTimesPerDay]
    split_ifs with hx
    · rw [hp]
    · rfl
  · simp only [generate_medicine_reminders, intRange_nonpos hle,
      List.filterMap_nil]
    exact flatMap_const_nil _

/-- Witness for the amended C8: "0x/day" parses to 0 ≤ 0 and the
generator then produces the empty slot list. -/
theorem C8_witness :
    generate_medicine_reminders 0 0 1 1 "0x/day" 3 = [] :=
  (C8_times_per_day_parse "0x/day").2.2.2 0 0 1 1 3 (by decide)

/-! ## Claim about the scheduler -/

/-- Claim C9: scheduling twice with the same reminder id (any names,
users and firing instants, from any prior job table) leaves exactly one
live job under that id, carrying the second call's data: the second
schedule replaces the first instead of duplicating it. -/
theorem C9_reschedule_replaces (jobs : List ScheduledJob) (rid : Nat)
    (n1 n2 : String) (u1 u2 : Nat) (t1 t2 : Int) :
    (schedule_reminder (schedule_reminder jobs rid n1 u1 t1) rid n2 u2 t2).filter
        (fun j => j.job_id = "reminder_" ++ toString rid) =
      [⟨"reminder_" ++ toString rid, rid, n2, u2, t2⟩] := by
  simp only [schedule_reminder, addJobReplace]
  rw [List.filter_append, List.filter_filter]
  simp

end Mediguard
